import Mathlib

/-!
A shallow embedding of the Guzo ride-booking application's trip/booking
matching flow, together with proofs about it.

The embedding follows the source code:
* `src/src/pages/DriverDashboard.tsx` — driver dashboard: `fetchMyTrips`,
  `fetchPendingRequests`, `handleAssignRequest`, the `matchingTrips` filter;
* the admin dashboard (`AdminDashboard`) — `fetchData`'s custom-request
  filter, `handleMatchRequest`, the match-with-trip list;
* `src/supabase/schema.sql` — the `bookings` and `driver_trips` tables,
  their enums and check constraints.

Database rows are modelled as Lean structures; integer columns are `Int`
(JavaScript arithmetic on them is ordinary integer arithmetic here),
`decimal(10,2)` money columns are `Rat`, `uuid` keys are `Nat`, timestamps
are `Int`, text is `String`.  The remote database is a pair of row lists.
Each network mutation of the flow is modelled with an explicit success flag
(the hosted backend can fail any individual call), and every run records
the list of calls it issued, in order, so that ordering and atomicity
properties can be stated.
-/

namespace Guzo

/-- `trip_status` enum from schema.sql. -/
inductive TripStatus where
  | scheduled
  | in_progress
  | completed
  | cancelled
deriving DecidableEq, Repr

/-- `booking_status` enum from schema.sql. -/
inductive BookingStatus where
  | pending
  | assigned
  | completed
  | cancelled
deriving DecidableEq, Repr

/-- `booking_type` enum from schema.sql. -/
inductive BookingType where
  | seat
  | whole_car
  | custom_request
deriving DecidableEq, Repr

/-- A row of the `driver_trips` table (schema.sql). -/
structure Trip where
  id : Nat
  driver_id : Nat
  origin : String
  destination : String
  departure_time : Int
  available_seats : Int
  booked_seats : Int
  price_per_seat : Rat
  whole_car_price : Rat
  status : TripStatus
deriving DecidableEq, Repr

/-- A row of the `bookings` table (schema.sql); columns not read by the
matching flow (phone, notes, customer id, timestamps) are omitted.
`price` is nullable in the schema, hence `Option`. -/
structure Booking where
  id : Nat
  customer_name : String
  pickup_location : String
  dropoff_location : String
  scheduled_time : Int
  status : BookingStatus
  booking_type : BookingType
  assigned_driver_id : Option Nat
  driver_trip_id : Option Nat
  seats_booked : Int
  price : Option Rat
deriving DecidableEq, Repr

/-- The remote database: the two tables the matching flow touches. -/
structure DB where
  bookings : List Booking
  trips : List Trip
deriving DecidableEq, Repr

/-- `supabase.from('bookings').update(...).eq('id', reqId)`: apply the
column assignment `f` to every row whose `id` equals `reqId`. -/
def updateBookingRows (rows : List Booking) (reqId : Nat) (f : Booking → Booking) :
    List Booking :=
  rows.map (fun b => if b.id = reqId then f b else b)

/-- `supabase.from('driver_trips').update(...).eq('id', tripId)`. -/
def updateTripRows (rows : List Trip) (tripId : Nat) (f : Trip → Trip) :
    List Trip :=
  rows.map (fun t => if t.id = tripId then f t else t)

/-- Look a booking up by primary key. -/
def findBooking (db : DB) (reqId : Nat) : Option Booking :=
  db.bookings.find? (fun b => b.id == reqId)

/-- Look a trip up by primary key. -/
def findTrip (db : DB) (tripId : Nat) : Option Trip :=
  db.trips.find? (fun t => t.id == tripId)

/-- The predicate of DriverDashboard's `fetchPendingRequests` query:
`.eq('booking_type', 'custom_request').eq('status', 'pending')
.is('driver_trip_id', null)`. -/
def isPendingCustomRequest (b : Booking) : Bool :=
  b.booking_type == .custom_request && b.status == .pending &&
    b.driver_trip_id == none

/-- DriverDashboard `fetchPendingRequests`: all pending, unassigned custom
requests (ordering by `created_at` does not affect membership and is not
modelled). -/
def fetchPendingRequests (db : DB) : List Booking :=
  db.bookings.filter isPendingCustomRequest

/-- JavaScript truthiness of a nullable uuid column: `null` is falsy and a
uuid string is a nonempty string, hence truthy. -/
def optionTruthy (o : Option Nat) : Bool :=
  o.isSome

/-- AdminDashboard `fetchData`: `bookingsData.filter(b =>
b.booking_type === 'custom_request' && b.status === 'pending' &&
!b.driver_trip_id)`. -/
def adminCustomRequests (bookingsData : List Booking) : List Booking :=
  bookingsData.filter (fun b =>
    b.booking_type == .custom_request && b.status == .pending &&
      !optionTruthy b.driver_trip_id)

/-- DriverDashboard `fetchMyTrips`: the driver's own trips. -/
def fetchMyTrips (userId : Nat) (db : DB) : List Trip :=
  db.trips.filter (fun t => t.driver_id == userId)

/-- AdminDashboard `fetchData`'s trips query with no filters active. -/
def fetchAllTrips (db : DB) : List Trip :=
  db.trips

/-- JavaScript `a || b` on an optional number: `undefined` and `0` are
falsy. -/
def jsOr (a : Option Int) (b : Int) : Int :=
  match a with
  | some v => if v = 0 then b else v
  | none => b

/-- The network calls a match/assign action can issue, in the order the
code issues them. -/
inductive DBCall where
  | readTrips
  | updateBooking
  | updateTrip
deriving DecidableEq, Repr

/-- Outcome of one run: the database afterwards and the calls issued. -/
structure RunResult where
  db : DB
  calls : List DBCall
deriving DecidableEq, Repr

/-- The column assignment object of the booking update in both
`handleAssignRequest` and `handleMatchRequest`: the driver handler passes
`user.id` for the driver, the admin handler passes `trip.driver_id`. -/
def bookingAssignCols (driverId tripId : Nat) (seats : Int) (price : Rat)
    (b : Booking) : Booking :=
  { b with driver_trip_id := some tripId,
           assigned_driver_id := some driverId,
           status := .assigned,
           seats_booked := seats,
           price := some price }

/-- The column assignment object of the trip update of the match/assign
flow: `{ booked_seats: <value computed from the client snapshot> }`. -/
def tripSeatsCols (newBookedSeats : Int) (t : Trip) : Trip :=
  { t with booked_seats := newBookedSeats }

/-- DriverDashboard `handleAssignRequest(requestId, tripId, seats)`.
`pendingRequests` and `myTrips` are the client's cached lists; `bookingOk`
and `tripOk` say whether each issued update call succeeds.  A failed call
leaves the database unchanged; the trip update is only issued after the
booking update has succeeded, mirroring the `if (!bookingError)` nesting. -/
def handleAssignRequest (userId : Nat) (pendingRequests : List Booking)
    (myTrips : List Trip) (requestId tripId : Nat) (seats : Int)
    (bookingOk tripOk : Bool) (db : DB) : RunResult :=
  match pendingRequests.find? (fun r => r.id == requestId),
        myTrips.find? (fun t => t.id == tripId) with
  | some request, some trip =>
      let availableSeats := trip.available_seats - trip.booked_seats
      if seats > availableSeats then ⟨db, []⟩
      else if seats > request.seats_booked then ⟨db, []⟩
      else
        let price := (seats : Rat) * trip.price_per_seat
        if bookingOk then
          let db1 : DB :=
            { db with
                bookings := updateBookingRows db.bookings requestId
                  (bookingAssignCols userId tripId seats price) }
          if tripOk then
            ⟨{ db1 with
                 trips := updateTripRows db1.trips tripId
                   (tripSeatsCols (trip.booked_seats + seats)) },
             [.updateBooking, .updateTrip]⟩
          else ⟨db1, [.updateBooking, .updateTrip]⟩
        else ⟨db, [.updateBooking]⟩
  | _, _ => ⟨db, []⟩

/-- AdminDashboard `handleMatchRequest(requestId, tripId, seatsToAssign?)`.
The assigned seat count is `seatsToAssign || matchingSeats[key] ||
request.seats_booked || 1`; the assigned driver is the trip's driver. -/
def handleMatchRequest (customRequests : List Booking) (driverTrips : List Trip)
    (requestId tripId : Nat) (seatsToAssign matchingSeatsEntry : Option Int)
    (bookingOk tripOk : Bool) (db : DB) : RunResult :=
  match customRequests.find? (fun r => r.id == requestId),
        driverTrips.find? (fun t => t.id == tripId) with
  | some request, some trip =>
      let availableSeats := trip.available_seats - trip.booked_seats
      let seats := jsOr seatsToAssign (jsOr matchingSeatsEntry
        (jsOr (some request.seats_booked) 1))
      if seats > availableSeats then ⟨db, []⟩
      else if seats > request.seats_booked then ⟨db, []⟩
      else
        if bookingOk then
          let db1 : DB :=
            { db with
                bookings := updateBookingRows db.bookings requestId
                  (bookingAssignCols trip.driver_id tripId seats
                    ((seats : Rat) * trip.price_per_seat)) }
          let newBookedSeats := trip.booked_seats + seats
          if tripOk then
            ⟨{ db1 with
                 trips := updateTripRows db1.trips tripId
                   (tripSeatsCols newBookedSeats) },
             [.updateBooking, .updateTrip]⟩
          else ⟨db1, [.updateBooking, .updateTrip]⟩
        else ⟨db, [.updateBooking]⟩
  | _, _ => ⟨db, []⟩

/-- A driver assign action at the session level: the trips read that
populates the cache (`fetchMyTrips`, a network read), then the handler's
two conditional writes. -/
def assignRequestAction (userId : Nat) (pendingRequests : List Booking)
    (requestId tripId : Nat) (seats : Int) (bookingOk tripOk : Bool)
    (db : DB) : RunResult :=
  let myTrips := fetchMyTrips userId db
  let r := handleAssignRequest userId pendingRequests myTrips requestId tripId
    seats bookingOk tripOk db
  ⟨r.db, .readTrips :: r.calls⟩

/-- An admin match action at the session level: the trips read
(`fetchData`'s `driver_trips` query), then the handler's two conditional
writes. -/
def matchRequestAction (customRequests : List Booking) (requestId tripId : Nat)
    (seatsToAssign matchingSeatsEntry : Option Int) (bookingOk tripOk : Bool)
    (db : DB) : RunResult :=
  let driverTrips := fetchAllTrips db
  let r := handleMatchRequest customRequests driverTrips requestId tripId
    seatsToAssign matchingSeatsEntry bookingOk tripOk db
  ⟨r.db, .readTrips :: r.calls⟩

/-- DriverDashboard's `matchingTrips` filter for a pending request. -/
def matchingTrips (myTrips : List Trip) (request : Booking) : List Trip :=
  myTrips.filter (fun trip =>
    trip.status == .scheduled &&
    trip.origin == request.pickup_location &&
    trip.destination == request.dropoff_location &&
    decide (trip.available_seats - trip.booked_seats > 0) &&
    decide (trip.departure_time ≥ request.scheduled_time))

/-- AdminDashboard's match-with-trip list for a request:
`driverTrips.filter(t => t.status === 'scheduled' &&
new Date(t.departure_time) >= new Date(request.scheduled_time))`. -/
def adminMatchableTrips (driverTrips : List Trip) (request : Booking) : List Trip :=
  driverTrips.filter (fun t =>
    t.status == .scheduled && decide (t.departure_time ≥ request.scheduled_time))

/-- The `driver_trips` check constraints of schema.sql:
`available_seats > 0`, `booked_seats >= 0`, and `seats_check`
(`booked_seats <= available_seats`). -/
def tripChecks (t : Trip) : Bool :=
  decide (t.available_seats > 0) && decide (t.booked_seats ≥ 0) &&
    decide (t.booked_seats ≤ t.available_seats)

/-- The seat invariant of a `driver_trips` row, as a proposition. -/
def tripInv (t : Trip) : Prop :=
  0 ≤ t.booked_seats ∧ t.booked_seats ≤ t.available_seats ∧ 0 < t.available_seats

instance (t : Trip) : Decidable (tripInv t) := by
  unfold tripInv
  infer_instance

/-- An UPDATE against `driver_trips` with the check constraints enforced:
if any updated row would violate a check, the whole statement fails and no
row changes. -/
def checkedUpdateTrips (rows : List Trip) (tripId : Nat) (f : Trip → Trip) :
    List Trip :=
  if (rows.filter (fun t => t.id == tripId)).all (fun t => tripChecks (f t)) then
    updateTripRows rows tripId f
  else rows

/-- An INSERT into `driver_trips` with the check constraints enforced. -/
def checkedInsertTrip (rows : List Trip) (t : Trip) : List Trip :=
  if tripChecks t then rows ++ [t] else rows

/-- Every write the application issues against `driver_trips`:
`handleCreateTrip` (insert; `booked_seats` defaults to 0 and `status` to
'scheduled'), the price edits (`handleUpdateTrip` in DriverDashboard and
`handleUpdateTripPrice` in AdminDashboard), and the `booked_seats` write of
the match/assign flow, whose value is the client snapshot's `booked_seats`
plus the assigned seats. -/
inductive TripOp where
  | createTrip (newId driverId : Nat) (origin destination : String)
      (departure_time : Int) (available_seats : Int)
      (price_per_seat whole_car_price : Rat)
  | updatePricePerSeat (tripId : Nat) (v : Rat)
  | updateWholeCarPrice (tripId : Nat) (v : Rat)
  | updateBookedSeats (tripId : Nat) (newBookedSeats : Int)

/-- Apply one application write to the `driver_trips` table, with the
database enforcing its check constraints. -/
def applyTripOp (op : TripOp) (rows : List Trip) : List Trip :=
  match op with
  | .createTrip newId driverId origin destination departure_time
      available_seats price_per_seat whole_car_price =>
      checkedInsertTrip rows
        { id := newId, driver_id := driverId, origin := origin,
          destination := destination, departure_time := departure_time,
          available_seats := available_seats, booked_seats := 0,
          price_per_seat := price_per_seat,
          whole_car_price := whole_car_price, status := .scheduled }
  | .updatePricePerSeat tripId v =>
      checkedUpdateTrips rows tripId (fun t => { t with price_per_seat := v })
  | .updateWholeCarPrice tripId v =>
      checkedUpdateTrips rows tripId (fun t => { t with whole_car_price := v })
  | .updateBookedSeats tripId newBookedSeats =>
      checkedUpdateTrips rows tripId (fun t => { t with booked_seats := newBookedSeats })

/-- Apply a sequence of application writes. -/
def applyTripOps (ops : List TripOp) (rows : List Trip) : List Trip :=
  ops.foldl (fun r op => applyTripOp op r) rows

/-- The seat count `handleMatchRequest` resolves from its arguments:
`seatsToAssign || matchingSeats[key] || request.seats_booked || 1`. -/
def resolvedSeats (seatsToAssign matchingSeatsEntry : Option Int)
    (request : Booking) : Int :=
  jsOr seatsToAssign (jsOr matchingSeatsEntry (jsOr (some request.seats_booked) 1))

/-! ### Sample data, used by the concrete theorems and witnesses -/

/-- A scheduled trip of driver 5 with 4 seats, none booked, at 50 ETB a
seat. -/
def sampleTrip : Trip :=
  { id := 10, driver_id := 5, origin := "Bole", destination := "CMC",
    departure_time := 100, available_seats := 4, booked_seats := 0,
    price_per_seat := 50, whole_car_price := 180, status := .scheduled }

/-- A pending custom request for 2 seats on the same route. -/
def sampleRequest : Booking :=
  { id := 1, customer_name := "Abel", pickup_location := "Bole",
    dropoff_location := "CMC", scheduled_time := 90, status := .pending,
    booking_type := .custom_request, assigned_driver_id := none,
    driver_trip_id := none, seats_booked := 2, price := none }

/-- A database holding just that request and that trip. -/
def sampleDB : DB := { bookings := [sampleRequest], trips := [sampleTrip] }

/-- A scheduled trip on a different route than `sampleRequest` asks for. -/
def offRouteTrip : Trip :=
  { id := 11, driver_id := 6, origin := "Piassa", destination := "Kality",
    departure_time := 100, available_seats := 4, booked_seats := 0,
    price_per_seat := 50, whole_car_price := 180, status := .scheduled }

/-- An admin match of `sampleRequest` to `sampleTrip` in which the booking
update succeeds and the subsequent trip update fails. -/
def partialFailRun : RunResult :=
  handleMatchRequest (adminCustomRequests sampleDB.bookings)
    (fetchAllTrips sampleDB) 1 10 (some 2) none true false sampleDB

/-- First of two identical driver assign invocations: driver 5 assigns
request 1 to trip 10 with 2 seats, with caches fetched from `sampleDB`. -/
def doubleRun1 : RunResult :=
  handleAssignRequest 5 (fetchPendingRequests sampleDB)
    (fetchMyTrips 5 sampleDB) 1 10 2 true true sampleDB

/-- Second invocation with the same arguments `(1, 10, 2)`: the trips
cache has been refetched after the first run (`fetchMyTrips` is a separate
query), while the pending-requests cache is the one fetched from
`sampleDB`, which still lists request 1. -/
def doubleRun2 : RunResult :=
  handleAssignRequest 5 (fetchPendingRequests sampleDB)
    (fetchMyTrips 5 doubleRun1.db) 1 10 2 true true doubleRun1.db

/-! ### Helper lemmas about row updates -/

theorem find?_updateBookingRows (rows : List Booking) (reqId : Nat)
    (f : Booking → Booking) (hf : ∀ b, (f b).id = b.id) :
    (updateBookingRows rows reqId f).find? (fun b => b.id == reqId) =
      (rows.find? (fun b => b.id == reqId)).map f := by
  induction rows with
  | nil => rfl
  | cons b rows ih =>
      by_cases h : b.id = reqId
      · simp only [updateBookingRows, List.map_cons, if_pos h]
        rw [List.find?_cons_of_pos _ (by simp [hf, h]),
          List.find?_cons_of_pos _ (by simp [h])]
        rfl
      · simp only [updateBookingRows, List.map_cons, if_neg h]
        rw [List.find?_cons_of_neg _ (by simp [h]),
          List.find?_cons_of_neg _ (by simp [h])]
        exact ih

theorem find?_updateTripRows (rows : List Trip) (tripId : Nat)
    (f : Trip → Trip) (hf : ∀ t, (f t).id = t.id) :
    (updateTripRows rows tripId f).find? (fun t => t.id == tripId) =
      (rows.find? (fun t => t.id == tripId)).map f := by
  induction rows with
  | nil => rfl
  | cons t rows ih =>
      by_cases h : t.id = tripId
      · simp only [updateTripRows, List.map_cons, if_pos h]
        rw [List.find?_cons_of_pos _ (by simp [hf, h]),
          List.find?_cons_of_pos _ (by simp [h])]
        rfl
      · simp only [updateTripRows, List.map_cons, if_neg h]
        rw [List.find?_cons_of_neg _ (by simp [h]),
          List.find?_cons_of_neg _ (by simp [h])]
        exact ih

theorem bookingAssignCols_id (driverId tripId : Nat) (seats : Int)
    (price : Rat) (b : Booking) :
    (bookingAssignCols driverId tripId seats price b).id = b.id := rfl

theorem tripSeatsCols_id (newBookedSeats : Int) (t : Trip) :
    (tripSeatsCols newBookedSeats t).id = t.id := rfl

theorem mem_updateBookingRows_of_id (rows : List Booking) (reqId : Nat)
    (f : Booking → Booking) (b : Booking)
    (hb : b ∈ updateBookingRows rows reqId f) (hid : b.id = reqId) :
    ∃ a ∈ rows, a.id = reqId ∧ b = f a := by
  obtain ⟨a, ha, hab⟩ := List.mem_map.mp hb
  by_cases h : a.id = reqId
  · exact ⟨a, ha, h, by rw [← hab, if_pos h]⟩
  · rw [if_neg h] at hab
    exact absurd (hab ▸ hid) h

/-! ### Case analysis of the two handlers -/

theorem handleAssignRequest_miss (userId : Nat) (pendingRequests : List Booking)
    (myTrips : List Trip) (requestId tripId : Nat) (seats : Int)
    (bookingOk tripOk : Bool) (db : DB)
    (h : pendingRequests.find? (fun r => r.id == requestId) = none ∨
      myTrips.find? (fun t => t.id == tripId) = none) :
    handleAssignRequest userId pendingRequests myTrips requestId tripId seats
      bookingOk tripOk db = ⟨db, []⟩ := by
  unfold handleAssignRequest
  rcases h with h | h
  · rw [h]
  · rw [h]
    cases pendingRequests.find? (fun r => r.id == requestId) <;> rfl

theorem handleAssignRequest_guard (userId : Nat) (pendingRequests : List Booking)
    (myTrips : List Trip) (requestId tripId : Nat) (seats : Int)
    (bookingOk tripOk : Bool) (db : DB) (request : Booking) (trip : Trip)
    (hreq : pendingRequests.find? (fun r => r.id == requestId) = some request)
    (htrip : myTrips.find? (fun t => t.id == tripId) = some trip)
    (h : seats > trip.available_seats - trip.booked_seats ∨
      seats > request.seats_booked) :
    handleAssignRequest userId pendingRequests myTrips requestId tripId seats
      bookingOk tripOk db = ⟨db, []⟩ := by
  unfold handleAssignRequest
  rw [hreq, htrip]
  rcases h with h | h
  · simp [if_pos h]
  · by_cases h1 : seats > trip.available_seats - trip.booked_seats
    · simp [if_pos h1]
    · simp [if_neg h1, if_pos h]

theorem handleAssignRequest_bookingFail (userId : Nat)
    (pendingRequests : List Booking) (myTrips : List Trip)
    (requestId tripId : Nat) (seats : Int) (tripOk : Bool) (db : DB)
    (request : Booking) (trip : Trip)
    (hreq : pendingRequests.find? (fun r => r.id == requestId) = some request)
    (htrip : myTrips.find? (fun t => t.id == tripId) = some trip)
    (h1 : ¬ seats > trip.available_seats - trip.booked_seats)
    (h2 : ¬ seats > request.seats_booked) :
    handleAssignRequest userId pendingRequests myTrips requestId tripId seats
      false tripOk db = ⟨db, [.updateBooking]⟩ := by
  unfold handleAssignRequest
  rw [hreq, htrip]
  simp [if_neg h1, if_neg h2]

theorem handleAssignRequest_bookingOnly (userId : Nat)
    (pendingRequests : List Booking) (myTrips : List Trip)
    (requestId tripId : Nat) (seats : Int) (db : DB)
    (request : Booking) (trip : Trip)
    (hreq : pendingRequests.find? (fun r => r.id == requestId) = some request)
    (htrip : myTrips.find? (fun t => t.id == tripId) = some trip)
    (h1 : ¬ seats > trip.available_seats - trip.booked_seats)
    (h2 : ¬ seats > request.seats_booked) :
    handleAssignRequest userId pendingRequests myTrips requestId tripId seats
      true false db =
      ⟨⟨updateBookingRows db.bookings requestId
          (bookingAssignCols userId tripId seats
            ((seats : Rat) * trip.price_per_seat)),
        db.trips⟩,
       [.updateBooking, .updateTrip]⟩ := by
  unfold handleAssignRequest
  rw [hreq, htrip]
  simp [if_neg h1, if_neg h2]

theorem handleAssignRequest_full (userId : Nat) (pendingRequests : List Booking)
    (myTrips : List Trip) (requestId tripId : Nat) (seats : Int)
    (db : DB) (request : Booking) (trip : Trip)
    (hreq : pendingRequests.find? (fun r => r.id == requestId) = some request)
    (htrip : myTrips.find? (fun t => t.id == tripId) = some trip)
    (h1 : ¬ seats > trip.available_seats - trip.booked_seats)
    (h2 : ¬ seats > request.seats_booked) :
    handleAssignRequest userId pendingRequests myTrips requestId tripId seats
      true true db =
      ⟨⟨updateBookingRows db.bookings requestId
          (bookingAssignCols userId tripId seats
            ((seats : Rat) * trip.price_per_seat)),
        updateTripRows db.trips tripId
          (tripSeatsCols (trip.booked_seats + seats))⟩,
       [.updateBooking, .updateTrip]⟩ := by
  unfold handleAssignRequest
  rw [hreq, htrip]
  simp [if_neg h1, if_neg h2]

theorem handleMatchRequest_miss (customRequests : List Booking)
    (driverTrips : List Trip) (requestId tripId : Nat)
    (seatsToAssign matchingSeatsEntry : Option Int) (bookingOk tripOk : Bool)
    (db : DB)
    (h : customRequests.find? (fun r => r.id == requestId) = none ∨
      driverTrips.find? (fun t => t.id == tripId) = none) :
    handleMatchRequest customRequests driverTrips requestId tripId
      seatsToAssign matchingSeatsEntry bookingOk tripOk db = ⟨db, []⟩ := by
  unfold handleMatchRequest
  rcases h with h | h
  · rw [h]
  · rw [h]
    cases customRequests.find? (fun r => r.id == requestId) <;> rfl

theorem handleMatchRequest_guard (customRequests : List Booking)
    (driverTrips : List Trip) (requestId tripId : Nat)
    (seatsToAssign matchingSeatsEntry : Option Int) (bookingOk tripOk : Bool)
    (db : DB) (request : Booking) (trip : Trip)
    (hreq : customRequests.find? (fun r => r.id == requestId) = some request)
    (htrip : driverTrips.find? (fun t => t.id == tripId) = some trip)
    (h : resolvedSeats seatsToAssign matchingSeatsEntry request >
        trip.available_seats - trip.booked_seats ∨
      resolvedSeats seatsToAssign matchingSeatsEntry request >
        request.seats_booked) :
    handleMatchRequest customRequests driverTrips requestId tripId
      seatsToAssign matchingSeatsEntry bookingOk tripOk db = ⟨db, []⟩ := by
  unfold handleMatchRequest
  rw [hreq, htrip]
  unfold resolvedSeats at h
  rcases h with h | h
  · simp [if_pos h]
  · by_cases h1 : resolvedSeats seatsToAssign matchingSeatsEntry request >
        trip.available_seats - trip.booked_seats
    · unfold resolvedSeats at h1
      simp [if_pos h1]
    · unfold resolvedSeats at h1
      simp [if_neg h1, if_pos h]

theorem handleMatchRequest_bookingFail (customRequests : List Booking)
    (driverTrips : List Trip) (requestId tripId : Nat)
    (seatsToAssign matchingSeatsEntry : Option Int) (tripOk : Bool)
    (db : DB) (request : Booking) (trip : Trip)
    (hreq : customRequests.find? (fun r => r.id == requestId) = some request)
    (htrip : driverTrips.find? (fun t => t.id == tripId) = some trip)
    (h1 : ¬ resolvedSeats seatsToAssign matchingSeatsEntry request >
      trip.available_seats - trip.booked_seats)
    (h2 : ¬ resolvedSeats seatsToAssign matchingSeatsEntry request >
      request.seats_booked) :
    handleMatchRequest customRequests driverTrips requestId tripId
      seatsToAssign matchingSeatsEntry false tripOk db =
      ⟨db, [.updateBooking]⟩ := by
  unfold handleMatchRequest
  rw [hreq, htrip]
  unfold resolvedSeats at h1 h2
  simp [if_neg h1, if_neg h2]

theorem handleMatchRequest_bookingOnly (customRequests : List Booking)
    (driverTrips : List Trip) (requestId tripId : Nat)
    (seatsToAssign matchingSeatsEntry : Option Int)
    (db : DB) (request : Booking) (trip : Trip)
    (hreq : customRequests.find? (fun r => r.id == requestId) = some request)
    (htrip : driverTrips.find? (fun t => t.id == tripId) = some trip)
    (h1 : ¬ resolvedSeats seatsToAssign matchingSeatsEntry request >
      trip.available_seats - trip.booked_seats)
    (h2 : ¬ resolvedSeats seatsToAssign matchingSeatsEntry request >
      request.seats_booked) :
    handleMatchRequest customRequests driverTrips requestId tripId
      seatsToAssign matchingSeatsEntry true false db =
      ⟨⟨updateBookingRows db.bookings requestId
          (bookingAssignCols trip.driver_id tripId
            (resolvedSeats seatsToAssign matchingSeatsEntry request)
            ((resolvedSeats seatsToAssign matchingSeatsEntry request : Rat) *
              trip.price_per_seat)),
        db.trips⟩,
       [.updateBooking, .updateTrip]⟩ := by
  unfold handleMatchRequest
  rw [hreq, htrip]
  unfold resolvedSeats at h1 h2
  simp [if_neg h1, if_neg h2, resolvedSeats]

theorem handleMatchRequest_full (customRequests : List Booking)
    (driverTrips : List Trip) (requestId tripId : Nat)
    (seatsToAssign matchingSeatsEntry : Option Int)
    (db : DB) (request : Booking) (trip : Trip)
    (hreq : customRequests.find? (fun r => r.id == requestId) = some request)
    (htrip : driverTrips.find? (fun t => t.id == tripId) = some trip)
    (h1 : ¬ resolvedSeats seatsToAssign matchingSeatsEntry request >
      trip.available_seats - trip.booked_seats)
    (h2 : ¬ resolvedSeats seatsToAssign matchingSeatsEntry request >
      request.seats_booked) :
    handleMatchRequest customRequests driverTrips requestId tripId
      seatsToAssign matchingSeatsEntry true true db =
      ⟨⟨updateBookingRows db.bookings requestId
          (bookingAssignCols trip.driver_id tripId
            (resolvedSeats seatsToAssign matchingSeatsEntry request)
            ((resolvedSeats seatsToAssign matchingSeatsEntry request : Rat) *
              trip.price_per_seat)),
        updateTripRows db.trips tripId
          (tripSeatsCols (trip.booked_seats +
            resolvedSeats seatsToAssign matchingSeatsEntry request))⟩,
       [.updateBooking, .updateTrip]⟩ := by
  unfold handleMatchRequest
  rw [hreq, htrip]
  unfold resolvedSeats at h1 h2
  simp [if_neg h1, if_neg h2, resolvedSeats]

theorem handleAssignRequest_cases (userId : Nat) (pendingRequests : List Booking)
    (myTrips : List Trip) (requestId tripId : Nat) (seats : Int)
    (bookingOk tripOk : Bool) (db : DB) :
    handleAssignRequest userId pendingRequests myTrips requestId tripId seats
      bookingOk tripOk db = ⟨db, []⟩ ∨
    (bookingOk = false ∧
      handleAssignRequest userId pendingRequests myTrips requestId tripId seats
        bookingOk tripOk db = ⟨db, [.updateBooking]⟩) ∨
    (bookingOk = true ∧
      (handleAssignRequest userId pendingRequests myTrips requestId tripId seats
        bookingOk tripOk db).calls = [.updateBooking, .updateTrip]) := by
  cases hreq : pendingRequests.find? (fun r => r.id == requestId) with
  | none =>
      exact Or.inl (handleAssignRequest_miss userId pendingRequests myTrips
        requestId tripId seats bookingOk tripOk db (Or.inl hreq))
  | some request =>
      cases htrip : myTrips.find? (fun t => t.id == tripId) with
      | none =>
          exact Or.inl (handleAssignRequest_miss userId pendingRequests myTrips
            requestId tripId seats bookingOk tripOk db (Or.inr htrip))
      | some trip =>
          by_cases h1 : seats > trip.available_seats - trip.booked_seats
          · exact Or.inl (handleAssignRequest_guard userId pendingRequests
              myTrips requestId tripId seats bookingOk tripOk db request trip
              hreq htrip (Or.inl h1))
          · by_cases h2 : seats > request.seats_booked
            · exact Or.inl (handleAssignRequest_guard userId pendingRequests
                myTrips requestId tripId seats bookingOk tripOk db request trip
                hreq htrip (Or.inr h2))
            · cases bookingOk with
              | false =>
                  exact Or.inr (Or.inl ⟨rfl,
                    handleAssignRequest_bookingFail userId pendingRequests
                      myTrips requestId tripId seats tripOk db request trip
                      hreq htrip h1 h2⟩)
              | true =>
                  refine Or.inr (Or.inr ⟨rfl, ?_⟩)
                  cases tripOk with
                  | false =>
                      rw [handleAssignRequest_bookingOnly userId pendingRequests
                        myTrips requestId tripId seats db request trip
                        hreq htrip h1 h2]
                  | true =>
                      rw [handleAssignRequest_full userId pendingRequests
                        myTrips requestId tripId seats db request trip
                        hreq htrip h1 h2]

theorem handleMatchRequest_cases (customRequests : List Booking)
    (driverTrips : List Trip) (requestId tripId : Nat)
    (seatsToAssign matchingSeatsEntry : Option Int) (bookingOk tripOk : Bool)
    (db : DB) :
    handleMatchRequest customRequests driverTrips requestId tripId
      seatsToAssign matchingSeatsEntry bookingOk tripOk db = ⟨db, []⟩ ∨
    (bookingOk = false ∧
      handleMatchRequest customRequests driverTrips requestId tripId
        seatsToAssign matchingSeatsEntry bookingOk tripOk db =
        ⟨db, [.updateBooking]⟩) ∨
    (bookingOk = true ∧
      (handleMatchRequest customRequests driverTrips requestId tripId
        seatsToAssign matchingSeatsEntry bookingOk tripOk db).calls =
        [.updateBooking, .updateTrip]) := by
  cases hreq : customRequests.find? (fun r => r.id == requestId) with
  | none =>
      exact Or.inl (handleMatchRequest_miss customRequests driverTrips
        requestId tripId seatsToAssign matchingSeatsEntry bookingOk tripOk db
        (Or.inl hreq))
  | some request =>
      cases htrip : driverTrips.find? (fun t => t.id == tripId) with
      | none =>
          exact Or.inl (handleMatchRequest_miss customRequests driverTrips
            requestId tripId seatsToAssign matchingSeatsEntry bookingOk tripOk
            db (Or.inr htrip))
      | some trip =>
          by_cases h1 : resolvedSeats seatsToAssign matchingSeatsEntry request >
              trip.available_seats - trip.booked_seats
          · exact Or.inl (handleMatchRequest_guard customRequests driverTrips
              requestId tripId seatsToAssign matchingSeatsEntry bookingOk
              tripOk db request trip hreq htrip (Or.inl h1))
          · by_cases h2 : resolvedSeats seatsToAssign matchingSeatsEntry
                request > request.seats_booked
            · exact Or.inl (handleMatchRequest_guard customRequests driverTrips
                requestId tripId seatsToAssign matchingSeatsEntry bookingOk
                tripOk db request trip hreq htrip (Or.inr h2))
            · cases bookingOk with
              | false =>
                  exact Or.inr (Or.inl ⟨rfl,
                    handleMatchRequest_bookingFail customRequests driverTrips
                      requestId tripId seatsToAssign matchingSeatsEntry tripOk
                      db request trip hreq htrip h1 h2⟩)
              | true =>
                  refine Or.inr (Or.inr ⟨rfl, ?_⟩)
                  cases tripOk with
                  | false =>
                      rw [handleMatchRequest_bookingOnly customRequests
                        driverTrips requestId tripId seatsToAssign
                        matchingSeatsEntry db request trip hreq htrip h1 h2]
                  | true =>
                      rw [handleMatchRequest_full customRequests driverTrips
                        requestId tripId seatsToAssign matchingSeatsEntry db
                        request trip hreq htrip h1 h2]

/-! ### The seat invariant and the checked writes -/

theorem tripInv_of_checks (t : Trip) (h : tripChecks t = true) : tripInv t := by
  simp only [tripChecks, Bool.and_eq_true, decide_eq_true_eq] at h
  exact ⟨h.1.2, h.2, h.1.1⟩

theorem mem_checkedInsertTrip (rows : List Trip) (t : Trip)
    (hinv : ∀ a ∈ rows, tripInv a) :
    ∀ a ∈ checkedInsertTrip rows t, tripInv a := by
  intro a ha
  unfold checkedInsertTrip at ha
  by_cases h : tripChecks t = true
  · rw [if_pos h] at ha
    rcases List.mem_append.mp ha with h1 | h1
    · exact hinv a h1
    · rw [List.mem_singleton] at h1
      exact h1 ▸ tripInv_of_checks t h
  · rw [if_neg h] at ha
    exact hinv a ha

theorem mem_checkedUpdateTrips (rows : List Trip) (tripId : Nat)
    (f : Trip → Trip) (hinv : ∀ a ∈ rows, tripInv a) :
    ∀ a ∈ checkedUpdateTrips rows tripId f, tripInv a := by
  intro a ha
  unfold checkedUpdateTrips at ha
  by_cases h : (rows.filter (fun t => t.id == tripId)).all
      (fun t => tripChecks (f t)) = true
  · rw [if_pos h] at ha
    obtain ⟨b, hb, hba⟩ := List.mem_map.mp ha
    by_cases hid : b.id = tripId
    · rw [if_pos hid] at hba
      have hbf : b ∈ rows.filter (fun t => t.id == tripId) :=
        List.mem_filter.mpr ⟨hb, by simp [hid]⟩
      have hcheck := List.all_eq_true.mp h b hbf
      exact hba ▸ tripInv_of_checks (f b) hcheck
    · rw [if_neg hid] at hba
      exact hba ▸ hinv b hb
  · rw [if_neg h] at ha
    exact hinv a ha

theorem mem_applyTripOp (op : TripOp) (rows : List Trip)
    (hinv : ∀ a ∈ rows, tripInv a) :
    ∀ a ∈ applyTripOp op rows, tripInv a := by
  cases op with
  | createTrip newId driverId origin destination departure_time
      available_seats price_per_seat whole_car_price =>
      exact mem_checkedInsertTrip rows _ hinv
  | updatePricePerSeat tripId v => exact mem_checkedUpdateTrips rows tripId _ hinv
  | updateWholeCarPrice tripId v => exact mem_checkedUpdateTrips rows tripId _ hinv
  | updateBookedSeats tripId v => exact mem_checkedUpdateTrips rows tripId _ hinv

theorem mem_applyTripOps (ops : List TripOp) (rows : List Trip)
    (hinv : ∀ a ∈ rows, tripInv a) :
    ∀ a ∈ applyTripOps ops rows, tripInv a := by
  induction ops generalizing rows with
  | nil => exact hinv
  | cons op ops ih =>
      exact ih (applyTripOp op rows) (mem_applyTripOp op rows hinv)

/-! ### The claims -/

/-- C1: for every custom request matched to a trip by `handleAssignRequest`
or `handleMatchRequest` with an assigned seat count that passes the seat
guards, the booking's price is set to exactly that seat count multiplied by
the trip's `price_per_seat`. -/
theorem C1_price_is_seats_times_rate :
    (∀ (userId requestId tripId : Nat) (pendingRequests : List Booking)
        (myTrips : List Trip) (seats : Int) (tripOk : Bool) (db : DB)
        (request : Booking) (trip : Trip) (b : Booking),
      pendingRequests.find? (fun r => r.id == requestId) = some request →
      myTrips.find? (fun t => t.id == tripId) = some trip →
      ¬ seats > trip.available_seats - trip.booked_seats →
      ¬ seats > request.seats_booked →
      b ∈ (handleAssignRequest userId pendingRequests myTrips requestId tripId
        seats true tripOk db).db.bookings →
      b.id = requestId →
      b.price = some ((seats : Rat) * trip.price_per_seat)) ∧
    (∀ (requestId tripId : Nat) (customRequests : List Booking)
        (driverTrips : List Trip) (seatsToAssign matchingSeatsEntry : Option Int)
        (tripOk : Bool) (db : DB) (request : Booking) (trip : Trip) (b : Booking),
      customRequests.find? (fun r => r.id == requestId) = some request →
      driverTrips.find? (fun t => t.id == tripId) = some trip →
      ¬ resolvedSeats seatsToAssign matchingSeatsEntry request >
        trip.available_seats - trip.booked_seats →
      ¬ resolvedSeats seatsToAssign matchingSeatsEntry request >
        request.seats_booked →
      b ∈ (handleMatchRequest customRequests driverTrips requestId tripId
        seatsToAssign matchingSeatsEntry true tripOk db).db.bookings →
      b.id = requestId →
      b.price = some
        ((resolvedSeats seatsToAssign matchingSeatsEntry request : Rat) *
          trip.price_per_seat)) := by
  constructor
  · intro userId requestId tripId pendingRequests myTrips seats tripOk db
      request trip b hreq htrip h1 h2 hb hid
    cases tripOk with
    | true =>
        rw [handleAssignRequest_full userId pendingRequests myTrips requestId
          tripId seats db request trip hreq htrip h1 h2] at hb
        obtain ⟨a, ha, haid, hba⟩ :=
          mem_updateBookingRows_of_id db.bookings requestId _ b hb hid
        rw [hba]
        rfl
    | false =>
        rw [handleAssignRequest_bookingOnly userId pendingRequests myTrips
          requestId tripId seats db request trip hreq htrip h1 h2] at hb
        obtain ⟨a, ha, haid, hba⟩ :=
          mem_updateBookingRows_of_id db.bookings requestId _ b hb hid
        rw [hba]
        rfl
  · intro requestId tripId customRequests driverTrips seatsToAssign
      matchingSeatsEntry tripOk db request trip b hreq htrip h1 h2 hb hid
    cases tripOk with
    | true =>
        rw [handleMatchRequest_full customRequests driverTrips requestId
          tripId seatsToAssign matchingSeatsEntry db request trip hreq htrip
          h1 h2] at hb
        obtain ⟨a, ha, haid, hba⟩ :=
          mem_updateBookingRows_of_id db.bookings requestId _ b hb hid
        rw [hba]
        rfl
    | false =>
        rw [handleMatchRequest_bookingOnly customRequests driverTrips requestId
          tripId seatsToAssign matchingSeatsEntry db request trip hreq htrip
          h1 h2] at hb
        obtain ⟨a, ha, haid, hba⟩ :=
          mem_updateBookingRows_of_id db.bookings requestId _ b hb hid
        rw [hba]
        rfl

/-- C1 witness: driver 5 assigns request 1 (2 seats requested) to trip 10
at 50 ETB a seat; the booking's price ends up 2 × 50. -/
theorem C1_witness :
    (bookingAssignCols 5 10 2 (((2 : Int) : Rat) * sampleTrip.price_per_seat)
      sampleRequest).price =
      some (((2 : Int) : Rat) * sampleTrip.price_per_seat) := by
  refine C1_price_is_seats_times_rate.1 5 1 10 [sampleRequest] [sampleTrip] 2
    true sampleDB sampleRequest sampleTrip _ rfl rfl ?_ ?_ ?_ rfl
  · norm_num [sampleTrip]
  · norm_num [sampleRequest]
  · exact List.mem_singleton.mpr rfl

/-- C2: there is an execution of the match flow in which the bookings
update succeeds and the subsequent driver_trips update fails, leaving the
booking in status 'assigned' with `driver_trip_id` set while the trip's
`booked_seats` is unchanged — the pair of writes is not atomic. -/
theorem C2_partial_failure_nonatomic :
    partialFailRun.calls = [.updateBooking, .updateTrip] ∧
    (findBooking partialFailRun.db 1).map Booking.status = some .assigned ∧
    (findBooking partialFailRun.db 1).map Booking.driver_trip_id =
      some (some 10) ∧
    findTrip partialFailRun.db 10 = some sampleTrip ∧
    findTrip sampleDB 10 = some sampleTrip ∧
    sampleTrip.booked_seats = 0 :=
  ⟨rfl, rfl, rfl, rfl, rfl, rfl⟩

/-- C3: each match/assign action is the sequence read trip → update booking
→ update trip, issued in that order with no retry, and the driver_trips
update is never issued unless the bookings update has completed
successfully. -/
theorem C3_call_order :
    (∀ (userId requestId tripId : Nat) (pendingRequests : List Booking)
        (seats : Int) (bookingOk tripOk : Bool) (db : DB),
      ((assignRequestAction userId pendingRequests requestId tripId seats
          bookingOk tripOk db).calls = [.readTrips] ∨
        (assignRequestAction userId pendingRequests requestId tripId seats
          bookingOk tripOk db).calls = [.readTrips, .updateBooking] ∨
        (assignRequestAction userId pendingRequests requestId tripId seats
          bookingOk tripOk db).calls =
          [.readTrips, .updateBooking, .updateTrip]) ∧
      (DBCall.updateTrip ∈ (assignRequestAction userId pendingRequests
          requestId tripId seats bookingOk tripOk db).calls →
        bookingOk = true ∧
        (assignRequestAction userId pendingRequests requestId tripId seats
          bookingOk tripOk db).calls =
          [.readTrips, .updateBooking, .updateTrip])) ∧
    (∀ (requestId tripId : Nat) (customRequests : List Booking)
        (seatsToAssign matchingSeatsEntry : Option Int)
        (bookingOk tripOk : Bool) (db : DB),
      ((matchRequestAction customRequests requestId tripId seatsToAssign
          matchingSeatsEntry bookingOk tripOk db).calls = [.readTrips] ∨
        (matchRequestAction customRequests requestId tripId seatsToAssign
          matchingSeatsEntry bookingOk tripOk db).calls =
          [.readTrips, .updateBooking] ∨
        (matchRequestAction customRequests requestId tripId seatsToAssign
          matchingSeatsEntry bookingOk tripOk db).calls =
          [.readTrips, .updateBooking, .updateTrip]) ∧
      (DBCall.updateTrip ∈ (matchRequestAction customRequests requestId tripId
          seatsToAssign matchingSeatsEntry bookingOk tripOk db).calls →
        bookingOk = true ∧
        (matchRequestAction customRequests requestId tripId seatsToAssign
          matchingSeatsEntry bookingOk tripOk db).calls =
          [.readTrips, .updateBooking, .updateTrip])) := by
  constructor
  · intro userId requestId tripId pendingRequests seats bookingOk tripOk db
    rcases handleAssignRequest_cases userId pendingRequests
        (fetchMyTrips userId db) requestId tripId seats bookingOk tripOk db
      with h | ⟨hbk, h⟩ | ⟨hbk, h⟩
    · constructor
      · left
        simp [assignRequestAction, h]
      · intro hmem
        simp [assignRequestAction, h] at hmem
    · constructor
      · right; left
        simp [assignRequestAction, h]
      · intro hmem
        simp [assignRequestAction, h] at hmem
    · constructor
      · right; right
        simp [assignRequestAction, h]
      · intro hmem
        exact ⟨hbk, by simp [assignRequestAction, h]⟩
  · intro requestId tripId customRequests seatsToAssign matchingSeatsEntry
      bookingOk tripOk db
    rcases handleMatchRequest_cases customRequests (fetchAllTrips db)
        requestId tripId seatsToAssign matchingSeatsEntry bookingOk tripOk db
      with h | ⟨hbk, h⟩ | ⟨hbk, h⟩
    · constructor
      · left
        simp [matchRequestAction, h]
      · intro hmem
        simp [matchRequestAction, h] at hmem
    · constructor
      · right; left
        simp [matchRequestAction, h]
      · intro hmem
        simp [matchRequestAction, h] at hmem
    · constructor
      · right; right
        simp [matchRequestAction, h]
      · intro hmem
        exact ⟨hbk, by simp [matchRequestAction, h]⟩

/-- C3 witness: a concrete fully successful assign action, whose trace is
one of the three admissible prefixes. -/
theorem C3_witness :
    (assignRequestAction 5 (fetchPendingRequests sampleDB) 1 10 2 true true
      sampleDB).calls = [.readTrips] ∨
    (assignRequestAction 5 (fetchPendingRequests sampleDB) 1 10 2 true true
      sampleDB).calls = [.readTrips, .updateBooking] ∨
    (assignRequestAction 5 (fetchPendingRequests sampleDB) 1 10 2 true true
      sampleDB).calls = [.readTrips, .updateBooking, .updateTrip] :=
  (C3_call_order.1 5 1 10 (fetchPendingRequests sampleDB) 2 true true
    sampleDB).1

/-- C4: a fully successful match changes the trip row only by setting
`booked_seats` to the client snapshot's `booked_seats` plus the assigned
seats; all other trip columns are unchanged, and when the snapshot agrees
with the stored row the remaining seat count drops by exactly the assigned
seats. -/
theorem C4_trip_frame :
    (∀ (userId requestId tripId : Nat) (pendingRequests : List Booking)
        (myTrips : List Trip) (seats : Int) (db : DB) (request : Booking)
        (trip t0 : Trip),
      pendingRequests.find? (fun r => r.id == requestId) = some request →
      myTrips.find? (fun t => t.id == tripId) = some trip →
      ¬ seats > trip.available_seats - trip.booked_seats →
      ¬ seats > request.seats_booked →
      findTrip db tripId = some t0 →
      findTrip (handleAssignRequest userId pendingRequests myTrips requestId
          tripId seats true true db).db tripId =
        some (tripSeatsCols (trip.booked_seats + seats) t0) ∧
      (tripSeatsCols (trip.booked_seats + seats) t0).booked_seats =
        trip.booked_seats + seats ∧
      (tripSeatsCols (trip.booked_seats + seats) t0).available_seats =
        t0.available_seats ∧
      (tripSeatsCols (trip.booked_seats + seats) t0).price_per_seat =
        t0.price_per_seat ∧
      (tripSeatsCols (trip.booked_seats + seats) t0).whole_car_price =
        t0.whole_car_price ∧
      (tripSeatsCols (trip.booked_seats + seats) t0).origin = t0.origin ∧
      (tripSeatsCols (trip.booked_seats + seats) t0).destination =
        t0.destination ∧
      (tripSeatsCols (trip.booked_seats + seats) t0).departure_time =
        t0.departure_time ∧
      (tripSeatsCols (trip.booked_seats + seats) t0).status = t0.status ∧
      (t0 = trip →
        (tripSeatsCols (trip.booked_seats + seats) t0).booked_seats =
          t0.booked_seats + seats ∧
        (tripSeatsCols (trip.booked_seats + seats) t0).available_seats -
            (tripSeatsCols (trip.booked_seats + seats) t0).booked_seats =
          (t0.available_seats - t0.booked_seats) - seats)) ∧
    (∀ (requestId tripId : Nat) (customRequests : List Booking)
        (driverTrips : List Trip) (seatsToAssign matchingSeatsEntry : Option Int)
        (db : DB) (request : Booking) (trip t0 : Trip),
      customRequests.find? (fun r => r.id == requestId) = some request →
      driverTrips.find? (fun t => t.id == tripId) = some trip →
      ¬ resolvedSeats seatsToAssign matchingSeatsEntry request >
        trip.available_seats - trip.booked_seats →
      ¬ resolvedSeats seatsToAssign matchingSeatsEntry request >
        request.seats_booked →
      findTrip db tripId = some t0 →
      findTrip (handleMatchRequest customRequests driverTrips requestId tripId
          seatsToAssign matchingSeatsEntry true true db).db tripId =
        some (tripSeatsCols
          (trip.booked_seats +
            resolvedSeats seatsToAssign matchingSeatsEntry request) t0) ∧
      (t0 = trip →
        (tripSeatsCols
            (trip.booked_seats +
              resolvedSeats seatsToAssign matchingSeatsEntry request)
            t0).available_seats -
          (tripSeatsCols
            (trip.booked_seats +
              resolvedSeats seatsToAssign matchingSeatsEntry request)
            t0).booked_seats =
          (t0.available_seats - t0.booked_seats) -
            resolvedSeats seatsToAssign matchingSeatsEntry request)) := by
  constructor
  · intro userId requestId tripId pendingRequests myTrips seats db request
      trip t0 hreq htrip h1 h2 ht0
    refine ⟨?_, rfl, rfl, rfl, rfl, rfl, rfl, rfl, rfl, ?_⟩
    · rw [handleAssignRequest_full userId pendingRequests myTrips requestId
        tripId seats db request trip hreq htrip h1 h2]
      simp only [findTrip] at ht0 ⊢
      rw [find?_updateTripRows db.trips tripId _
        (tripSeatsCols_id (trip.booked_seats + seats)), ht0]
      rfl
    · intro h
      subst h
      refine ⟨rfl, ?_⟩
      show t0.available_seats - (t0.booked_seats + seats) =
        t0.available_seats - t0.booked_seats - seats
      omega
  · intro requestId tripId customRequests driverTrips seatsToAssign
      matchingSeatsEntry db request trip t0 hreq htrip h1 h2 ht0
    refine ⟨?_, ?_⟩
    · rw [handleMatchRequest_full customRequests driverTrips requestId tripId
        seatsToAssign matchingSeatsEntry db request trip hreq htrip h1 h2]
      simp only [findTrip] at ht0 ⊢
      rw [find?_updateTripRows db.trips tripId _
        (tripSeatsCols_id (trip.booked_seats +
          resolvedSeats seatsToAssign matchingSeatsEntry request)),
        ht0]
      rfl
    · intro h
      subst h
      show t0.available_seats -
          (t0.booked_seats + resolvedSeats seatsToAssign matchingSeatsEntry request) =
        t0.available_seats - t0.booked_seats -
          resolvedSeats seatsToAssign matchingSeatsEntry request
      omega

/-- C4 witness: the concrete successful assign of 2 seats bumps trip 10's
`booked_seats` from 0 to 2 and drops its remaining seats by 2. -/
theorem C4_witness :
    findTrip (handleAssignRequest 5 [sampleRequest] [sampleTrip] 1 10 2
        true true sampleDB).db 10 =
      some (tripSeatsCols (sampleTrip.booked_seats + 2) sampleTrip) ∧
    (tripSeatsCols (sampleTrip.booked_seats + 2) sampleTrip).available_seats -
        (tripSeatsCols (sampleTrip.booked_seats + 2) sampleTrip).booked_seats =
      (sampleTrip.available_seats - sampleTrip.booked_seats) - 2 := by
  have h := C4_trip_frame.1 5 1 10 [sampleRequest] [sampleTrip] 2 sampleDB
    sampleRequest sampleTrip sampleTrip rfl rfl
    (by norm_num [sampleTrip]) (by norm_num [sampleRequest]) rfl
  exact ⟨h.1, (h.2.2.2.2.2.2.2.2.2 rfl).2⟩

/-- C5: a booking is listed as a pending custom request (driver's pending
list and admin's custom-requests list) iff its `booking_type` is
'custom_request', its status is 'pending', and its `driver_trip_id` is
null. -/
theorem C5_pending_custom_request_iff :
    (∀ (db : DB) (b : Booking),
      b ∈ fetchPendingRequests db ↔
        b ∈ db.bookings ∧ b.booking_type = .custom_request ∧
          b.status = .pending ∧ b.driver_trip_id = none) ∧
    (∀ (bookingsData : List Booking) (b : Booking),
      b ∈ adminCustomRequests bookingsData ↔
        b ∈ bookingsData ∧ b.booking_type = .custom_request ∧
          b.status = .pending ∧ b.driver_trip_id = none) := by
  constructor
  · intro db b
    simp [fetchPendingRequests, isPendingCustomRequest, List.mem_filter,
      and_assoc, Option.isNone_iff_eq_none]
  · intro bookingsData b
    simp [adminCustomRequests, optionTruthy, List.mem_filter, and_assoc,
      Option.isNone_iff_eq_none]

/-- C5 witness: the sample pending custom request is listed. -/
theorem C5_witness : sampleRequest ∈ fetchPendingRequests sampleDB :=
  (C5_pending_custom_request_iff.1 sampleDB sampleRequest).mpr
    ⟨by simp [sampleDB], rfl, rfl, rfl⟩

/-- C6: after a successful match, the booking row carries the trip's id,
the trip's driver, status 'assigned' and the assigned seat count, and it no
longer satisfies the pending-custom-request predicate. -/
theorem C6_matched_booking_fields :
    (∀ (userId requestId tripId : Nat) (pendingRequests : List Booking)
        (seats : Int) (db : DB) (request : Booking) (trip : Trip)
        (b0 : Booking),
      pendingRequests.find? (fun r => r.id == requestId) = some request →
      (fetchMyTrips userId db).find? (fun t => t.id == tripId) = some trip →
      ¬ seats > trip.available_seats - trip.booked_seats →
      ¬ seats > request.seats_booked →
      findBooking db requestId = some b0 →
      findBooking (handleAssignRequest userId pendingRequests
          (fetchMyTrips userId db) requestId tripId seats true true db).db
          requestId =
        some (bookingAssignCols userId tripId seats
          ((seats : Rat) * trip.price_per_seat) b0) ∧
      trip.driver_id = userId ∧
      (bookingAssignCols userId tripId seats
        ((seats : Rat) * trip.price_per_seat) b0).driver_trip_id =
        some tripId ∧
      (bookingAssignCols userId tripId seats
        ((seats : Rat) * trip.price_per_seat) b0).assigned_driver_id =
        some trip.driver_id ∧
      (bookingAssignCols userId tripId seats
        ((seats : Rat) * trip.price_per_seat) b0).status = .assigned ∧
      (bookingAssignCols userId tripId seats
        ((seats : Rat) * trip.price_per_seat) b0).seats_booked = seats ∧
      isPendingCustomRequest (bookingAssignCols userId tripId seats
        ((seats : Rat) * trip.price_per_seat) b0) = false) ∧
    (∀ (requestId tripId : Nat) (customRequests : List Booking)
        (driverTrips : List Trip) (seatsToAssign matchingSeatsEntry : Option Int)
        (db : DB) (request : Booking) (trip : Trip) (b0 : Booking),
      customRequests.find? (fun r => r.id == requestId) = some request →
      driverTrips.find? (fun t => t.id == tripId) = some trip →
      ¬ resolvedSeats seatsToAssign matchingSeatsEntry request >
        trip.available_seats - trip.booked_seats →
      ¬ resolvedSeats seatsToAssign matchingSeatsEntry request >
        request.seats_booked →
      findBooking db requestId = some b0 →
      findBooking (handleMatchRequest customRequests driverTrips requestId
          tripId seatsToAssign matchingSeatsEntry true true db).db requestId =
        some (bookingAssignCols trip.driver_id tripId
          (resolvedSeats seatsToAssign matchingSeatsEntry request)
          ((resolvedSeats seatsToAssign matchingSeatsEntry request : Rat) *
            trip.price_per_seat) b0) ∧
      (bookingAssignCols trip.driver_id tripId
        (resolvedSeats seatsToAssign matchingSeatsEntry request)
        ((resolvedSeats seatsToAssign matchingSeatsEntry request : Rat) *
          trip.price_per_seat) b0).driver_trip_id = some tripId ∧
      (bookingAssignCols trip.driver_id tripId
        (resolvedSeats seatsToAssign matchingSeatsEntry request)
        ((resolvedSeats seatsToAssign matchingSeatsEntry request : Rat) *
          trip.price_per_seat) b0).assigned_driver_id = some trip.driver_id ∧
      (bookingAssignCols trip.driver_id tripId
        (resolvedSeats seatsToAssign matchingSeatsEntry request)
        ((resolvedSeats seatsToAssign matchingSeatsEntry request : Rat) *
          trip.price_per_seat) b0).status = .assigned ∧
      (bookingAssignCols trip.driver_id tripId
        (resolvedSeats seatsToAssign matchingSeatsEntry request)
        ((resolvedSeats seatsToAssign matchingSeatsEntry request : Rat) *
          trip.price_per_seat) b0).seats_booked =
        resolvedSeats seatsToAssign matchingSeatsEntry request ∧
      isPendingCustomRequest (bookingAssignCols trip.driver_id tripId
        (resolvedSeats seatsToAssign matchingSeatsEntry request)
        ((resolvedSeats seatsToAssign matchingSeatsEntry request : Rat) *
          trip.price_per_seat) b0) = false) := by
  constructor
  · intro userId requestId tripId pendingRequests seats db request trip b0
      hreq htrip h1 h2 hb0
    have hdrv : trip.driver_id = userId := by
      have hmem := List.mem_of_find?_eq_some htrip
      unfold fetchMyTrips at hmem
      simpa using (List.mem_filter.mp hmem).2
    refine ⟨?_, hdrv, rfl, ?_, rfl, rfl, ?_⟩
    · rw [handleAssignRequest_full userId pendingRequests
        (fetchMyTrips userId db) requestId tripId seats db request trip
        hreq htrip h1 h2]
      simp only [findBooking] at hb0 ⊢
      rw [find?_updateBookingRows db.bookings requestId _
        (bookingAssignCols_id userId tripId seats _), hb0]
      rfl
    · simp [bookingAssignCols, hdrv]
    · simp [isPendingCustomRequest, bookingAssignCols]
  · intro requestId tripId customRequests driverTrips seatsToAssign
      matchingSeatsEntry db request trip b0 hreq htrip h1 h2 hb0
    refine ⟨?_, rfl, rfl, rfl, rfl, ?_⟩
    · rw [handleMatchRequest_full customRequests driverTrips requestId tripId
        seatsToAssign matchingSeatsEntry db request trip hreq htrip h1 h2]
      simp only [findBooking] at hb0 ⊢
      rw [find?_updateBookingRows db.bookings requestId _
        (bookingAssignCols_id trip.driver_id tripId _ _), hb0]
      rfl
    · simp [isPendingCustomRequest, bookingAssignCols]

/-- C6 witness: the concrete matched booking and its 'assigned' status. -/
theorem C6_witness :
    findBooking (handleAssignRequest 5 [sampleRequest]
        (fetchMyTrips 5 sampleDB) 1 10 2 true true sampleDB).db 1 =
      some (bookingAssignCols 5 10 2
        (((2 : Int) : Rat) * sampleTrip.price_per_seat) sampleRequest) ∧
    (bookingAssignCols 5 10 2
      (((2 : Int) : Rat) * sampleTrip.price_per_seat)
      sampleRequest).status = .assigned := by
  have h := C6_matched_booking_fields.1 5 1 10 [sampleRequest] 2 sampleDB
    sampleRequest sampleTrip sampleRequest rfl rfl
    (by norm_num [sampleTrip]) (by norm_num [sampleRequest]) rfl
  exact ⟨h.1, h.2.2.2.2.1⟩

/-- C7: the match mutation is not idempotent — in the state `sampleDB`,
with the pending-requests cache fetched once and the trips cache refetched
between invocations, running the assign twice with the same arguments
leaves `booked_seats` at 4 instead of 2, and the second invocation still
issues both writes although the request was already assigned. -/
theorem C7_not_idempotent :
    (findTrip doubleRun1.db 10).map Trip.booked_seats = some 2 ∧
    (findTrip doubleRun2.db 10).map Trip.booked_seats = some 4 ∧
    (findTrip doubleRun2.db 10).map Trip.booked_seats ≠
      (findTrip doubleRun1.db 10).map Trip.booked_seats ∧
    (findBooking doubleRun1.db 1).map Booking.status = some .assigned ∧
    doubleRun2.calls = [.updateBooking, .updateTrip] := by
  have h1 : (findTrip doubleRun1.db 10).map Trip.booked_seats = some 2 := rfl
  have h2 : (findTrip doubleRun2.db 10).map Trip.booked_seats = some 4 := rfl
  refine ⟨h1, h2, ?_, rfl, rfl⟩
  rw [h1, h2]
  decide

/-- C8: when the requested seat count exceeds the trip's remaining seats or
the seats the customer requested, both handlers alert and return before any
update: the database is unchanged and no update call is issued. -/
theorem C8_guard_no_writes :
    (∀ (userId requestId tripId : Nat) (pendingRequests : List Booking)
        (myTrips : List Trip) (seats : Int) (bookingOk tripOk : Bool)
        (db : DB) (request : Booking) (trip : Trip),
      pendingRequests.find? (fun r => r.id == requestId) = some request →
      myTrips.find? (fun t => t.id == tripId) = some trip →
      (seats > trip.available_seats - trip.booked_seats ∨
        seats > request.seats_booked) →
      handleAssignRequest userId pendingRequests myTrips requestId tripId
        seats bookingOk tripOk db = ⟨db, []⟩) ∧
    (∀ (requestId tripId : Nat) (customRequests : List Booking)
        (driverTrips : List Trip) (seatsToAssign matchingSeatsEntry : Option Int)
        (bookingOk tripOk : Bool) (db : DB) (request : Booking) (trip : Trip),
      customRequests.find? (fun r => r.id == requestId) = some request →
      driverTrips.find? (fun t => t.id == tripId) = some trip →
      (resolvedSeats seatsToAssign matchingSeatsEntry request >
          trip.available_seats - trip.booked_seats ∨
        resolvedSeats seatsToAssign matchingSeatsEntry request >
          request.seats_booked) →
      handleMatchRequest customRequests driverTrips requestId tripId
        seatsToAssign matchingSeatsEntry bookingOk tripOk db = ⟨db, []⟩) := by
  constructor
  · intro userId requestId tripId pendingRequests myTrips seats bookingOk
      tripOk db request trip hreq htrip h
    exact handleAssignRequest_guard userId pendingRequests myTrips requestId
      tripId seats bookingOk tripOk db request trip hreq htrip h
  · intro requestId tripId customRequests driverTrips seatsToAssign
      matchingSeatsEntry bookingOk tripOk db request trip hreq htrip h
    exact handleMatchRequest_guard customRequests driverTrips requestId tripId
      seatsToAssign matchingSeatsEntry bookingOk tripOk db request trip
      hreq htrip h

/-- C8 witness: asking for 5 seats on a trip with 4 remaining leaves the
database untouched and issues no calls. -/
theorem C8_witness :
    handleAssignRequest 5 [sampleRequest] [sampleTrip] 1 10 5 true true
      sampleDB = ⟨sampleDB, []⟩ :=
  C8_guard_no_writes.1 5 1 10 [sampleRequest] [sampleTrip] 5 true true
    sampleDB sampleRequest sampleTrip rfl rfl
    (Or.inl (by norm_num [sampleTrip]))

/-- C9: with the database enforcing the driver_trips check constraints,
every application write against the table preserves the seat invariant
0 ≤ booked_seats ≤ available_seats ∧ 0 < available_seats, so the remaining
seat count is never negative. -/
theorem C9_seat_invariant (ops : List TripOp) (rows : List Trip)
    (hinv : ∀ t ∈ rows, tripInv t) :
    ∀ t ∈ applyTripOps ops rows,
      tripInv t ∧ 0 ≤ t.available_seats - t.booked_seats := by
  intro t ht
  obtain ⟨hb, hba, ha⟩ := mem_applyTripOps ops rows hinv t ht
  exact ⟨⟨hb, hba, ha⟩, by omega⟩

/-- C9 witness: creating the sample trip from the empty table yields a row
satisfying the invariant, with nonnegative remaining seats. -/
theorem C9_witness :
    tripInv sampleTrip ∧
      0 ≤ sampleTrip.available_seats - sampleTrip.booked_seats := by
  refine C9_seat_invariant
    [TripOp.createTrip 10 5 "Bole" "CMC" 100 4 50 180] [] (by simp)
    sampleTrip ?_
  exact List.mem_singleton.mpr rfl

/-- C10: the driver's candidate list is exactly the driver's scheduled
trips on the request's route with remaining seats and a departure no
earlier than the request, while the admin's list filters only on status
and departure time — so an admin can match a request to a trip on a
different route. -/
theorem C10_candidate_lists :
    (∀ (myTrips : List Trip) (request : Booking) (t : Trip),
      t ∈ matchingTrips myTrips request ↔
        t ∈ myTrips ∧ t.status = .scheduled ∧
          t.origin = request.pickup_location ∧
          t.destination = request.dropoff_location ∧
          t.available_seats - t.booked_seats > 0 ∧
          t.departure_time ≥ request.scheduled_time) ∧
    (∀ (driverTrips : List Trip) (request : Booking) (t : Trip),
      t ∈ adminMatchableTrips driverTrips request ↔
        t ∈ driverTrips ∧ t.status = .scheduled ∧
          t.departure_time ≥ request.scheduled_time) ∧
    (adminMatchableTrips [offRouteTrip] sampleRequest = [offRouteTrip] ∧
      matchingTrips [offRouteTrip] sampleRequest = [] ∧
      ¬ offRouteTrip.origin = sampleRequest.pickup_location) := by
  refine ⟨?_, ?_, ?_⟩
  · intro myTrips request t
    simp [matchingTrips, List.mem_filter, and_assoc]
  · intro driverTrips request t
    simp [adminMatchableTrips, List.mem_filter, and_assoc]
  · refine ⟨?_, ?_, ?_⟩
    · simp [adminMatchableTrips, offRouteTrip, sampleRequest]
    · simp [matchingTrips, offRouteTrip, sampleRequest]
    · simp [offRouteTrip, sampleRequest]

/-- C10 witness: the sample on-route trip is in the driver's candidate
list. -/
theorem C10_witness : sampleTrip ∈ matchingTrips [sampleTrip] sampleRequest :=
  (C10_candidate_lists.1 [sampleTrip] sampleRequest sampleTrip).mpr
    ⟨by simp, rfl, rfl, rfl, by norm_num [sampleTrip],
      by norm_num [sampleTrip, sampleRequest]⟩

end Guzo

